import Mathlib

/-!
Verification development for the pg_dump_restore orchestration script
(src/pg_dump_restore.py).  The script is shallowly embedded: each Python
function becomes a Lean function over an explicit model of its environment
(HTTP responses, the Docker daemon, the PostgreSQL server), returning the
trace of observable events it performs together with a Python-style
outcome (normal return, sys.exit, or an uncaught exception).
-/

/-- Python-style computation outcome: a normal return value, a controlled
termination via sys.exit with the given code, or an uncaught exception
carrying the exception description. -/
inductive POut (α : Type) where
  | ok (a : α) : POut α
  | exit (code : Nat) : POut α
  | raise (err : String) : POut α
deriving DecidableEq, Repr

/-- The response payload shape built by get_db_records: a mapping with the
single key alive_ssns holding an ordered list of ssn strings. -/
structure QueryResult where
  alive_ssns : List String
deriving DecidableEq, Repr

/-- Observable events performed by the script, in program order: log lines,
HTTP calls, container lifecycle operations, the restore subprocess, database
operations, and printing to stdout. -/
inductive Ev where
  | logInfo (msg : String) : Ev
  | logDebug (msg : String) : Ev
  | logError (msg : String) : Ev
  | httpGet (url : String) : Ev
  | httpPost (url : String) (payload : Option QueryResult) : Ev
  | containerRun : Ev
  | sleep (seconds : Nat) : Ev
  | restoreRun : Ev
  | dbConnect : Ev
  | dbQuery : Ev
  | containerStop : Ev
  | containerRemove : Ev
  | print (s : String) : Ev
deriving DecidableEq, Repr

/-- Sequencing of embedded Python statements: run the first computation and,
if it returned normally, feed its value to the continuation; a sys.exit or an
exception short-circuits, keeping the events emitted so far. -/
def pseq {α β : Type} (x : List Ev × POut α) (f : α → List Ev × POut β) :
    List Ev × POut β :=
  match x with
  | (evs, POut.ok a) =>
      let r := f a
      (evs ++ r.1, r.2)
  | (evs, POut.exit n) => (evs, POut.exit n)
  | (evs, POut.raise e) => (evs, POut.raise e)

/-- Python try/finally: the finalizer always runs; if the finalizer itself
exits or raises, its outcome replaces the body outcome, otherwise the body
outcome (return, exit, or in-flight exception) resumes after the finalizer. -/
def pyFinally {α : Type} (body : List Ev × POut α) (fin : List Ev × POut Unit) :
    List Ev × POut α :=
  match fin.2 with
  | POut.ok _ => (body.1 ++ fin.1, body.2)
  | POut.exit n => (body.1 ++ fin.1, POut.exit n)
  | POut.raise e => (body.1 ++ fin.1, POut.raise e)

/-- One row of the table public.criminal_records, restricted to the two
columns the fixed query reads. -/
structure CriminalRecord where
  ssn : String
  status : String
deriving DecidableEq, Repr

/-- Environment model of the PostgreSQL server evaluating the fixed query
of get_db_records (select ssn from public.criminal_records where the status
column equals alive): one single-column row per record whose status is
alive, in the server row order, which this model takes to be table order. -/
def runAliveQuery (table : List CriminalRecord) : List (List String) :=
  (table.filter (fun r => r.status == "alive")).map (fun r => [r.ssn])

/-- Environment model for one call of get_db_records: whether psycopg2.connect,
connection.cursor, cursor.execute and cursor.fetchall succeed, and the table
contents the server holds when the query runs. -/
structure DbWorld where
  connectOk : Bool
  cursorOk : Bool
  executeOk : Bool
  fetchOk : Bool
  table : List CriminalRecord
deriving DecidableEq, Repr

/-- The log message of the except branch of get_db_records; the Python text
interpolates the exception, which this model elides. -/
def dbErrMsg : String := "Error while fetching data from PostgreSQL"

/-- The logging.debug message of the finally branch of get_db_records. -/
def dbClosedMsg : String := "PostgreSQL connection is closed"

/-- Python indexing record[0] on a row of the single-column result set. -/
def pyIndex0 (row : List String) : String := row.headD ""

/-- Embedding of get_db_records (src lines 55-80).  Branches follow Python
semantics of its try/except/finally with local variables bound on the fly:
if connect raises, the except branch logs, then the finally branch evaluates
the unbound local connection and raises UnboundLocalError; if cursor creation
raises, the finally branch evaluates the unbound local cursor and raises;
if execute or fetchall raises, the except branch logs, the finally branch
closes cleanly, and the function falls off its end returning None; otherwise
the dictionary built from the fetched rows is returned. -/
def get_db_records (w : DbWorld) : List Ev × POut (Option QueryResult) :=
  if w.connectOk = false then
    ([Ev.dbConnect, Ev.logError dbErrMsg], POut.raise "UnboundLocalError: connection")
  else if w.cursorOk = false then
    ([Ev.dbConnect, Ev.logError dbErrMsg], POut.raise "UnboundLocalError: cursor")
  else if w.executeOk = false then
    ([Ev.dbConnect, Ev.dbQuery, Ev.logError dbErrMsg, Ev.logDebug dbClosedMsg],
      POut.ok none)
  else if w.fetchOk = false then
    ([Ev.dbConnect, Ev.dbQuery, Ev.logError dbErrMsg, Ev.logDebug dbClosedMsg],
      POut.ok none)
  else
    ([Ev.dbConnect, Ev.dbQuery, Ev.logDebug dbClosedMsg],
      POut.ok (some { alive_ssns := (runAliveQuery w.table).map pyIndex0 }))

/-- C2 -- When connection, cursor, execute and fetch all succeed, get_db_records
returns exactly the mapping with key alive_ssns holding the ssn of every row
whose status is alive, in server (table) order: the returned list equals the
ssn projection of the alive-filtered table, every alive row contributes its
ssn, and every listed ssn comes from some alive row. -/
theorem get_db_records_alive_ssns (w : DbWorld)
    (hc : w.connectOk = true) (hcu : w.cursorOk = true)
    (he : w.executeOk = true) (hf : w.fetchOk = true) :
    (get_db_records w).2 =
      POut.ok (some { alive_ssns :=
        (w.table.filter (fun r => r.status == "alive")).map (fun r => r.ssn) })
    ∧ (∀ r ∈ w.table, r.status = "alive" →
        r.ssn ∈ ((w.table.filter (fun r => r.status == "alive")).map (fun r => r.ssn)))
    ∧ (∀ s ∈ ((w.table.filter (fun r => r.status == "alive")).map (fun r => r.ssn)),
        ∃ r ∈ w.table, r.status = "alive" ∧ r.ssn = s) := by
  refine ⟨?_, ?_, ?_⟩
  · simp [get_db_records, hc, hcu, he, hf, runAliveQuery, pyIndex0, List.map_map,
      Function.comp]
  · intro r hr hst
    exact List.mem_map.mpr ⟨r, List.mem_filter.mpr ⟨hr, by simp [hst]⟩, rfl⟩
  · intro s hs
    rcases List.mem_map.mp hs with ⟨r, hr, hrs⟩
    rcases List.mem_filter.mp hr with ⟨hmem, hst⟩
    exact ⟨r, hmem, by simpa using hst, hrs⟩

/-- C2 witness: a table with one alive row (ssn 999-99-9999) and one deceased
row yields exactly the alive ssn. -/
theorem get_db_records_alive_ssns_witness :
    (get_db_records
      { connectOk := true, cursorOk := true, executeOk := true, fetchOk := true,
        table := [{ ssn := "999-99-9999", status := "alive" },
                  { ssn := "111-11-1111", status := "deceased" }] }).2 =
      POut.ok (some { alive_ssns := ["999-99-9999"] }) := by
  have h := get_db_records_alive_ssns
    { connectOk := true, cursorOk := true, executeOk := true, fetchOk := true,
      table := [{ ssn := "999-99-9999", status := "alive" },
                { ssn := "111-11-1111", status := "deceased" }] }
    rfl rfl rfl rfl
  exact h.1.trans (by decide)

/-- C10 -- If psycopg2.connect itself fails, get_db_records raises an
unbound-local error from its finally branch instead of returning None; and a
silent fall-through (returning None) can only happen when the connection
object was successfully created. -/
theorem get_db_records_unbound_connection (w : DbWorld) :
    (w.connectOk = false →
      (get_db_records w).2 = POut.raise "UnboundLocalError: connection")
    ∧ ((get_db_records w).2 = POut.ok none → w.connectOk = true) := by
  constructor
  · intro h
    simp [get_db_records, h]
  · intro h
    by_contra hc
    have hcf : w.connectOk = false := by
      cases hcc : w.connectOk
      · rfl
      · exact absurd hcc hc
    simp [get_db_records, hcf] at h

/-- C10 witness: with connect failing, get_db_records raises the unbound-local
error on the connection variable. -/
theorem get_db_records_unbound_connection_witness :
    (get_db_records
      { connectOk := false, cursorOk := true, executeOk := true, fetchOk := true,
        table := [] }).2 = POut.raise "UnboundLocalError: connection" :=
  (get_db_records_unbound_connection
    { connectOk := false, cursorOk := true, executeOk := true, fetchOk := true,
      table := [] }).1 rfl

/-- C7 counterexample: a connection-open failure is caught and logged, but the
function does not fall through to an implicit None return: the finally branch
raises an unbound-local error, so the run aborts instead of proceeding to
submit.  This refutes the claim that on any connection or query error the
function returns an implicit empty result rather than terminating the run. -/
theorem get_db_records_connect_error_raises :
    (get_db_records
      { connectOk := false, cursorOk := true, executeOk := true, fetchOk := true,
        table := [] }).2 = POut.raise "UnboundLocalError: connection"
    ∧ (get_db_records
      { connectOk := false, cursorOk := true, executeOk := true, fetchOk := true,
        table := [] }).2 ≠ POut.ok none := by
  constructor
  · decide
  · decide

/-- An HTTP response as the script observes it: status code and body text. -/
structure HttpResp where
  status : Nat
  text : String
deriving DecidableEq, Repr

/-- The problem URL of get_postgres_dump, parameterized by the access token. -/
def problemUrl (token : String) : String :=
  "https://hackattic.com/challenges/backup_restore/problem?access_token=" ++ token

/-- The solve URL of submit_solution, parameterized by the access token. -/
def solveUrl (token : String) : String :=
  "https://hackattic.com/challenges/backup_restore/solve?access_token=" ++ token
    ++ "&playground=1"

/-- Embedding of get_postgres_dump (src lines 21-44).  The environment
supplies the HTTP response and the result of json.loads on its body: none
models a JSONDecodeError, some fields models a JSON object with the given
string fields.  A non-200 status logs the body and exits 1; an unparseable
body logs and exits 1; otherwise the dump key is looked up, raising KeyError
when absent. -/
def get_postgres_dump (token : String) (resp : HttpResp)
    (parsed : Option (List (String × String))) : List Ev × POut String :=
  let url := problemUrl token
  let pre := [Ev.logInfo ("Getting PostgreSQL dump from " ++ url), Ev.httpGet url]
  if resp.status ≠ 200 then
    (pre ++ [Ev.logError
      ("Failed to get PostgreSQL dump from " ++ url ++ "\n" ++ resp.text)],
      POut.exit 1)
  else
    match parsed with
    | none =>
        (pre ++ [Ev.logError ("Failed to parse json output from " ++ url)],
          POut.exit 1)
    | some fields =>
        match fields.lookup "dump" with
        | some d => (pre, POut.ok d)
        | none => (pre, POut.raise "KeyError: dump")

/-- Embedding of submit_solution (src lines 83-98): POST the payload to the
solve URL; a non-200 status logs the body and exits 1, otherwise the response
text is returned. -/
def submit_solution (token : String) (data : Option QueryResult)
    (resp : HttpResp) : List Ev × POut String :=
  let url := solveUrl token
  let pre := [Ev.logInfo ("Submitting solution to " ++ url), Ev.httpPost url data]
  if resp.status ≠ 200 then
    (pre ++ [Ev.logError
      ("Failed to submit solution to " ++ url ++ "\n" ++ resp.text)],
      POut.exit 1)
  else
    (pre ++ [Ev.logDebug ("Solution submitted to " ++ url)], POut.ok resp.text)

/-- Environment model for one run of the top-level try/finally (src lines
112-168): whether client.containers.run succeeds and the container id it
returns, whether the restore subprocess call raises CalledProcessError and
the return code it otherwise reports, the database environment seen by
get_db_records, and the HTTP response to the solve POST. -/
structure MainWorld where
  accessToken : String
  runOk : Bool
  containerId : String
  restoreRaises : Bool
  restoreRc : Int
  db : DbWorld
  submitResp : HttpResp
deriving DecidableEq, Repr

/-- Embedding of the restore block (src lines 129-150): run psql inside the
container feeding the dump on stdin; a CalledProcessError is caught, logged
and exits 1; a non-zero return code is logged and exits 1; otherwise success
is logged. -/
def restoreStep (w : MainWorld) : List Ev × POut Unit :=
  if w.restoreRaises then
    ([Ev.restoreRun,
      Ev.logError ("Failed to restore PostgreSQL dump to " ++ w.containerId)],
      POut.exit 1)
  else if w.restoreRc ≠ 0 then
    ([Ev.restoreRun,
      Ev.logError ("Failed to restore PostgreSQL dump to " ++ w.containerId)],
      POut.exit 1)
  else
    ([Ev.restoreRun,
      Ev.logInfo ("Restored PostgreSQL dump to " ++ w.containerId)],
      POut.ok ())

/-- Embedding of the body of the top-level try (src lines 113-161): start the
container (raising when the Docker call fails), sleep 2 seconds, restore the
dump, query the records, log and submit the results, print the response.
The logging.info on the results elides the interpolated payload. -/
def mainBody (w : MainWorld) : List Ev × POut Unit :=
  if w.runOk then
    pseq ([Ev.containerRun, Ev.sleep 2,
           Ev.logInfo ("Launched PostgreSQL container " ++ w.containerId),
           Ev.logInfo ("Restoring PostgreSQL dump to " ++ w.containerId)],
          POut.ok ()) (fun _ =>
    pseq (restoreStep w) (fun _ =>
    pseq (get_db_records w.db) (fun results =>
    pseq ([Ev.logInfo "results"], POut.ok ()) (fun _ =>
    pseq (submit_solution w.accessToken results w.submitResp) (fun txt =>
    ([Ev.print txt], POut.ok ()))))))
  else
    ([Ev.containerRun], POut.raise "docker APIError")

/-- Embedding of the top-level finally (src lines 163-168): when the
container variable is bound it is stopped and removed with log lines around
each operation; when client.containers.run raised before binding it, the
very first log line evaluates the unbound local container and raises. -/
def mainFinally (w : MainWorld) : List Ev × POut Unit :=
  if w.runOk then
    ([Ev.logInfo ("Stopping PostgreSQL container " ++ w.containerId),
      Ev.containerStop,
      Ev.logInfo ("Stopped PostgreSQL container " ++ w.containerId),
      Ev.logInfo ("Removing PostgreSQL container " ++ w.containerId),
      Ev.containerRemove], POut.ok ())
  else
    ([], POut.raise "UnboundLocalError: container")

/-- Embedding of the top-level try/finally (src lines 112-168). -/
def mainRun (w : MainWorld) : List Ev × POut Unit :=
  pyFinally (mainBody w) (mainFinally w)

/-- A trace performs no container-cleanup operation. -/
def noCleanup (evs : List Ev) : Prop :=
  Ev.containerStop ∉ evs ∧ Ev.containerRemove ∉ evs

theorem noCleanup_pseq {α β : Type} (x : List Ev × POut α)
    (f : α → List Ev × POut β) (hx : noCleanup x.1)
    (hf : ∀ a, noCleanup (f a).1) : noCleanup (pseq x f).1 := by
  rcases x with ⟨evs, r⟩
  cases r with
  | ok a =>
      rcases hf a with ⟨h1, h2⟩
      rcases hx with ⟨h3, h4⟩
      constructor <;> simp [pseq, List.mem_append] <;> tauto
  | exit n => exact hx
  | raise e => exact hx

theorem get_db_records_noCleanup (d : DbWorld) :
    noCleanup (get_db_records d).1 := by
  rcases d with ⟨c, cu, e, f, t⟩
  cases c <;> cases cu <;> cases e <;> cases f <;>
    simp [get_db_records, noCleanup]

theorem restoreStep_noCleanup (w : MainWorld) :
    noCleanup (restoreStep w).1 := by
  unfold restoreStep
  split
  · simp [noCleanup]
  · split <;> simp [noCleanup]

theorem submit_solution_noCleanup (token : String) (data : Option QueryResult)
    (resp : HttpResp) : noCleanup (submit_solution token data resp).1 := by
  unfold submit_solution
  split <;> simp [noCleanup]

theorem mainBody_noCleanup (w : MainWorld) : noCleanup (mainBody w).1 := by
  cases hrw : w.runOk with
  | false => simp [mainBody, hrw, noCleanup]
  | true =>
    unfold mainBody
    rw [hrw]
    simp only [if_true]
    apply noCleanup_pseq
    · simp [noCleanup]
    intro _
    apply noCleanup_pseq (restoreStep w) _ (restoreStep_noCleanup w)
    intro _
    apply noCleanup_pseq (get_db_records w.db) _ (get_db_records_noCleanup w.db)
    intro results
    apply noCleanup_pseq
    · simp [noCleanup]
    intro _
    apply noCleanup_pseq (submit_solution w.accessToken results w.submitResp) _
      (submit_solution_noCleanup w.accessToken results w.submitResp)
    intro txt
    simp [noCleanup]

/-- C1 -- After a successful provisioning (client.containers.run returned a
handle), whatever the restore, query and submit steps do (success, a
controlled sys.exit 1, or an uncaught exception), the run invokes the
container stop and the container remove exactly once each, as the final
step: the whole trace ends with the stop-then-remove cleanup suffix and no
stop or remove occurs before it. -/
theorem cleanup_always (w : MainWorld) (h : w.runOk = true) :
    ((mainRun w).1).count Ev.containerStop = 1
    ∧ ((mainRun w).1).count Ev.containerRemove = 1
    ∧ ∃ pre, (mainRun w).1 = pre ++
        [Ev.logInfo ("Stopping PostgreSQL container " ++ w.containerId),
         Ev.containerStop,
         Ev.logInfo ("Stopped PostgreSQL container " ++ w.containerId),
         Ev.logInfo ("Removing PostgreSQL container " ++ w.containerId),
         Ev.containerRemove]
      ∧ Ev.containerStop ∉ pre ∧ Ev.containerRemove ∉ pre := by
  have hfin : mainFinally w =
      ([Ev.logInfo ("Stopping PostgreSQL container " ++ w.containerId),
        Ev.containerStop,
        Ev.logInfo ("Stopped PostgreSQL container " ++ w.containerId),
        Ev.logInfo ("Removing PostgreSQL container " ++ w.containerId),
        Ev.containerRemove], POut.ok ()) := by
    simp [mainFinally, h]
  have htr : (mainRun w).1 = (mainBody w).1 ++
      [Ev.logInfo ("Stopping PostgreSQL container " ++ w.containerId),
       Ev.containerStop,
       Ev.logInfo ("Stopped PostgreSQL container " ++ w.containerId),
       Ev.logInfo ("Removing PostgreSQL container " ++ w.containerId),
       Ev.containerRemove] := by
    simp [mainRun, pyFinally, hfin]
  rcases mainBody_noCleanup w with ⟨hstop, hrem⟩
  refine ⟨?_, ?_, (mainBody w).1, htr, hstop, hrem⟩
  · rw [htr, List.count_append, List.count_eq_zero.mpr hstop]
    simp [List.count_cons]
  · rw [htr, List.count_append, List.count_eq_zero.mpr hrem]
    simp [List.count_cons]

/-- C1 witness: a fully successful run over a concrete world stops and
removes the container exactly once each, at the end of the trace. -/
theorem cleanup_always_witness :
    ((mainRun
      { accessToken := "abc123", runOk := true, containerId := "c1",
        restoreRaises := false, restoreRc := 0,
        db := { connectOk := true, cursorOk := true, executeOk := true,
                fetchOk := true, table := [] },
        submitResp := { status := 200, text := "ok" } }).1).count
          Ev.containerStop = 1
    ∧ ((mainRun
      { accessToken := "abc123", runOk := true, containerId := "c1",
        restoreRaises := false, restoreRc := 0,
        db := { connectOk := true, cursorOk := true, executeOk := true,
                fetchOk := true, table := [] },
        submitResp := { status := 200, text := "ok" } }).1).count
          Ev.containerRemove = 1
    ∧ ∃ pre, (mainRun
      { accessToken := "abc123", runOk := true, containerId := "c1",
        restoreRaises := false, restoreRc := 0,
        db := { connectOk := true, cursorOk := true, executeOk := true,
                fetchOk := true, table := [] },
        submitResp := { status := 200, text := "ok" } }).1 = pre ++
        [Ev.logInfo ("Stopping PostgreSQL container " ++ "c1"),
         Ev.containerStop,
         Ev.logInfo ("Stopped PostgreSQL container " ++ "c1"),
         Ev.logInfo ("Removing PostgreSQL container " ++ "c1"),
         Ev.containerRemove]
      ∧ Ev.containerStop ∉ pre ∧ Ev.containerRemove ∉ pre :=
  cleanup_always
    { accessToken := "abc123", runOk := true, containerId := "c1",
      restoreRaises := false, restoreRc := 0,
      db := { connectOk := true, cursorOk := true, executeOk := true,
              fetchOk := true, table := [] },
      submitResp := { status := 200, text := "ok" } } rfl

/-- C9 -- If client.containers.run raises before the container handle is
bound, the failure propagates past the try block uncontrolled, and the
cleanup step itself raises an unbound-local error when it references the
handle: the run ends in that raise and neither stop nor remove is ever
invoked. -/
theorem provision_failure_unbound_cleanup (w : MainWorld)
    (h : w.runOk = false) :
    (mainRun w).2 = POut.raise "UnboundLocalError: container"
    ∧ Ev.containerStop ∉ (mainRun w).1
    ∧ Ev.containerRemove ∉ (mainRun w).1 := by
  refine ⟨?_, ?_, ?_⟩ <;>
    simp [mainRun, pyFinally, mainFinally, mainBody, h]

/-- C9 witness: with the Docker run call failing in a concrete world, the run
raises the unbound-local error and performs no cleanup operation. -/
theorem provision_failure_unbound_cleanup_witness :
    (mainRun
      { accessToken := "t", runOk := false, containerId := "",
        restoreRaises := false, restoreRc := 0,
        db := { connectOk := true, cursorOk := true, executeOk := true,
                fetchOk := true, table := [] },
        submitResp := { status := 200, text := "ok" } }).2 =
      POut.raise "UnboundLocalError: container" :=
  (provision_failure_unbound_cleanup
    { accessToken := "t", runOk := false, containerId := "",
      restoreRaises := false, restoreRc := 0,
      db := { connectOk := true, cursorOk := true, executeOk := true,
              fetchOk := true, table := [] },
      submitResp := { status := 200, text := "ok" } } rfl).1

/-- C7 amended -- On a query error raised after the connection and the cursor
were successfully created (execute or fetchall fails), get_db_records logs
the error and falls through, implicitly returning None, and the run proceeds
to submit that empty payload instead of aborting; a failure of the
connection-open itself instead raises an unbound-local error out of the
function. -/
theorem get_db_records_query_error_silent (w : MainWorld)
    (h1 : w.runOk = true) (h2 : w.restoreRaises = false) (h3 : w.restoreRc = 0)
    (h4 : w.db.connectOk = true) (h5 : w.db.cursorOk = true)
    (h6 : w.db.executeOk = false ∨ w.db.fetchOk = false) :
    (get_db_records w.db).2 = POut.ok none
    ∧ Ev.logError dbErrMsg ∈ (get_db_records w.db).1
    ∧ Ev.httpPost (solveUrl w.accessToken) none ∈ (mainRun w).1 := by
  have hdb : get_db_records w.db =
      ([Ev.dbConnect, Ev.dbQuery, Ev.logError dbErrMsg, Ev.logDebug dbClosedMsg],
        POut.ok none) := by
    rcases h6 with he | hf
    · simp [get_db_records, h4, h5, he]
    · cases hee : w.db.executeOk <;> simp [get_db_records, h4, h5, hf, hee]
  refine ⟨by rw [hdb], by rw [hdb]; simp, ?_⟩
  by_cases hs : w.submitResp.status = 200 <;>
    simp [mainRun, pyFinally, mainFinally, mainBody, pseq, restoreStep,
      submit_solution, hdb, h1, h2, h3, hs]

/-- C7 amended witness: with execute failing in a concrete world, the query
step returns None after logging and the run still posts that payload. -/
theorem get_db_records_query_error_silent_witness :
    (get_db_records
      { connectOk := true, cursorOk := true, executeOk := false,
        fetchOk := true, table := [] }).2 = POut.ok none :=
  (get_db_records_query_error_silent
    { accessToken := "t", runOk := true, containerId := "c1",
      restoreRaises := false, restoreRc := 0,
      db := { connectOk := true, cursorOk := true, executeOk := false,
              fetchOk := true, table := [] },
      submitResp := { status := 200, text := "ok" } }
    rfl rfl rfl rfl rfl (Or.inl rfl)).1

/-- C5 -- get_postgres_dump exits with status 1 after logging the failure
body on a non-200 status; exits with status 1 after logging on a body that
json.loads cannot parse; and on success returns the dump field of the parsed
structure unchanged. -/
theorem get_postgres_dump_contract (token : String) (resp : HttpResp)
    (parsed : Option (List (String × String))) :
    (resp.status ≠ 200 →
      (get_postgres_dump token resp parsed).2 = POut.exit 1
      ∧ Ev.logError ("Failed to get PostgreSQL dump from " ++ problemUrl token
          ++ "\n" ++ resp.text) ∈ (get_postgres_dump token resp parsed).1)
    ∧ (resp.status = 200 → parsed = none →
      (get_postgres_dump token resp parsed).2 = POut.exit 1
      ∧ Ev.logError ("Failed to parse json output from " ++ problemUrl token)
          ∈ (get_postgres_dump token resp parsed).1)
    ∧ (∀ fields d, resp.status = 200 → parsed = some fields →
        fields.lookup "dump" = some d →
        (get_postgres_dump token resp parsed).2 = POut.ok d) := by
  refine ⟨?_, ?_, ?_⟩
  · intro hs
    constructor <;> simp [get_postgres_dump, hs]
  · intro hs hp
    subst hp
    constructor <;> simp [get_postgres_dump, hs]
  · intro fields d hs hp hd
    subst hp
    simp [get_postgres_dump, hs, hd]

/-- C5 witness: a concrete 500 response makes the fetch exit 1, and a
concrete 200 response whose parsed body carries a dump field returns that
field unchanged. -/
theorem get_postgres_dump_contract_witness :
    (get_postgres_dump "tok" { status := 500, text := "boom" } none).2 =
      POut.exit 1
    ∧ (get_postgres_dump "tok" { status := 200, text := "ignored" }
        (some [("dump", "ENCODED")])).2 = POut.ok "ENCODED" :=
  ⟨(get_postgres_dump_contract "tok" { status := 500, text := "boom" }
      none).1 (by decide) |>.1,
   (get_postgres_dump_contract "tok" { status := 200, text := "ignored" }
      (some [("dump", "ENCODED")])).2.2 [("dump", "ENCODED")] "ENCODED"
      rfl rfl (by decide)⟩

/-- The zlib.MAX_WBITS constant. -/
def MAX_WBITS : Nat := 15

/-- Embedding of decompress_and_decode_dump (src lines 47-53), parametric in
the three library primitives it composes: base64.b64decode, zlib.decompress
(called with the wbits argument 16 + MAX_WBITS, selecting gzip framing) and
bytes.decode utf-8.  Each primitive either returns or raises; a raise
propagates out of the function unhandled, never becoming a sys.exit. -/
def decompress_and_decode_dump {β : Type}
    (b64decode : String → Except String β)
    (zlibDecompress : Nat → β → Except String β)
    (utf8Decode : β → Except String String)
    (dump : String) : POut String :=
  match b64decode dump with
  | Except.error e => POut.raise e
  | Except.ok raw =>
    match zlibDecompress (16 + MAX_WBITS) raw with
    | Except.error e => POut.raise e
    | Except.ok data =>
      match utf8Decode data with
      | Except.error e => POut.raise e
      | Except.ok s => POut.ok s

/-- C3 -- Round trip: for primitives whose decode direction inverts the
known encoding scheme (utf-8 encode, then gzip compress, then base64
encode), the decode step of the program applied to the encoding of any
plain-text x yields x again. -/
theorem decompress_and_decode_dump_roundtrip {β : Type}
    (b64decode : String → Except String β)
    (zlibDecompress : Nat → β → Except String β)
    (utf8Decode : β → Except String String)
    (b64encode : β → String) (gzipCompress : β → β) (utf8Encode : String → β)
    (hb : ∀ b, b64decode (b64encode b) = Except.ok b)
    (hz : ∀ b, zlibDecompress (16 + MAX_WBITS) (gzipCompress b) = Except.ok b)
    (hu : ∀ s, utf8Decode (utf8Encode s) = Except.ok s)
    (x : String) :
    decompress_and_decode_dump b64decode zlibDecompress utf8Decode
      (b64encode (gzipCompress (utf8Encode x))) = POut.ok x := by
  simp [decompress_and_decode_dump, hb, hz, hu]

/-- C3 witness: instantiating the primitives with mutually inverse concrete
codecs, the decode of the encode of a concrete string returns it. -/
theorem decompress_and_decode_dump_roundtrip_witness :
    decompress_and_decode_dump (fun s => Except.ok s)
      (fun _ b => Except.ok b) (fun s => Except.ok s) "hello dump" =
      POut.ok "hello dump" :=
  decompress_and_decode_dump_roundtrip (fun s => Except.ok s)
    (fun _ b => Except.ok b) (fun s => Except.ok s)
    (fun s => s) (fun s => s) (fun s => s)
    (fun _ => rfl) (fun _ => rfl) (fun _ => rfl) "hello dump"

/-- C6 -- The decode step first base64-decodes, then decompresses with the
gzip-framed wbits value 16 + MAX_WBITS, then utf-8 decodes; an error in any
stage propagates out as that stage's uncaught exception, later stages are
not consulted, a fully successful pipeline returns the decoded text, and no
input ever produces a controlled sys.exit. -/
theorem decompress_and_decode_dump_errors {β : Type}
    (b64decode : String → Except String β)
    (zlibDecompress : Nat → β → Except String β)
    (utf8Decode : β → Except String String) (dump : String) :
    (∀ e, b64decode dump = Except.error e →
      decompress_and_decode_dump b64decode zlibDecompress utf8Decode dump =
        POut.raise e)
    ∧ (∀ raw e, b64decode dump = Except.ok raw →
        zlibDecompress (16 + MAX_WBITS) raw = Except.error e →
        decompress_and_decode_dump b64decode zlibDecompress utf8Decode dump =
          POut.raise e)
    ∧ (∀ raw data e, b64decode dump = Except.ok raw →
        zlibDecompress (16 + MAX_WBITS) raw = Except.ok data →
        utf8Decode data = Except.error e →
        decompress_and_decode_dump b64decode zlibDecompress utf8Decode dump =
          POut.raise e)
    ∧ (∀ raw data s, b64decode dump = Except.ok raw →
        zlibDecompress (16 + MAX_WBITS) raw = Except.ok data →
        utf8Decode data = Except.ok s →
        decompress_and_decode_dump b64decode zlibDecompress utf8Decode dump =
          POut.ok s)
    ∧ (∀ n, decompress_and_decode_dump b64decode zlibDecompress utf8Decode
        dump ≠ POut.exit n) := by
  refine ⟨?_, ?_, ?_, ?_, ?_⟩
  · intro e he
    simp [decompress_and_decode_dump, he]
  · intro raw e hb hz
    simp [decompress_and_decode_dump, hb, hz]
  · intro raw data e hb hz hu
    simp [decompress_and_decode_dump, hb, hz, hu]
  · intro raw data s hb hz hu
    simp [decompress_and_decode_dump, hb, hz, hu]
  · intro n
    unfold decompress_and_decode_dump
    cases hb : b64decode dump with
    | error e => simp
    | ok raw =>
      cases hz : zlibDecompress (16 + MAX_WBITS) raw with
      | error e => simp [hz]
      | ok data =>
        cases hu : utf8Decode data with
        | error e => simp [hz, hu]
        | ok s => simp [hz, hu]

/-- C6 witness: with a base64 primitive that rejects the concrete input, the
decode step raises that error (an uncaught exception, not an exit). -/
theorem decompress_and_decode_dump_errors_witness :
    decompress_and_decode_dump (fun _ => (Except.error "binascii error" :
        Except String String)) (fun _ b => Except.ok b)
      (fun s => Except.ok s) "%%%" = POut.raise "binascii error" :=
  (decompress_and_decode_dump_errors (fun _ => Except.error "binascii error")
    (fun _ b => Except.ok b) (fun s => Except.ok s) "%%%").1
    "binascii error" rfl

/-- The literal part of the regex of src line 108: the marker that must
directly precede the captured version characters. -/
def marker : List Char := "Dumped from database version ".toList

/-- A character matched by the capturing class of the regex (digits and the
dot). -/
def isVerChar (c : Char) : Bool := c.isDigit || c == '.'

/-- The capture the regex makes at a position where the marker just matched:
the maximal run of version characters following the marker. -/
def verRun (s : List Char) : List Char :=
  (s.drop marker.length).takeWhile isVerChar

/-- The remainder of the text after a successful match at the head of s. -/
def verRest (s : List Char) : List Char :=
  (s.drop marker.length).drop (verRun s).length

/-- The regex matches at the head of s: the marker is a literal prefix and at
least one version character follows it. -/
def hasMatch (s : List Char) : Bool :=
  marker.isPrefixOf s && !(verRun s).isEmpty

/-- Embedding of re.findall with the pattern of src line 108: scan left to
right; at a position where the marker matches and a nonempty run of version
characters follows, capture the run and resume after the match
(non-overlapping matches); otherwise advance one character.  The fuel
argument, instantiated with the text length, bounds the recursion. -/
def scanVersions : Nat → List Char → List (List Char)
  | 0, _ => []
  | _ + 1, [] => []
  | fuel + 1, c :: cs =>
      if marker.isPrefixOf (c :: cs) then
        if (verRun (c :: cs)).isEmpty then scanVersions fuel cs
        else verRun (c :: cs) :: scanVersions fuel (verRest (c :: cs))
      else scanVersions fuel cs

/-- re.findall over the whole text. -/
def findVersions (s : List Char) : List (List Char) :=
  scanVersions s.length s

/-- Embedding of the indexing [0] applied to the findall result on src line
108: the first capture, or an IndexError when the match list is empty. -/
def extract_db_version (s : List Char) : POut (List Char) :=
  match findVersions s with
  | [] => POut.raise "IndexError: list index out of range"
  | v :: _ => POut.ok v

theorem scanVersions_nil (f : Nat) : scanVersions f [] = [] := by
  cases f <;> rfl

theorem isPrefixOf_length_le {α : Type} [BEq α] :
    ∀ (l₁ l₂ : List α), l₁.isPrefixOf l₂ = true → l₁.length ≤ l₂.length := by
  intro l₁
  induction l₁ with
  | nil => intro l₂ _; simp
  | cons a as ih =>
    intro l₂ h
    cases l₂ with
    | nil => simp [List.isPrefixOf] at h
    | cons b bs =>
      simp only [List.isPrefixOf, Bool.and_eq_true] at h
      have := ih bs h.2
      simp only [List.length_cons]
      omega

theorem isPrefixOf_append_self {α : Type} [BEq α] [LawfulBEq α] :
    ∀ (l r : List α), l.isPrefixOf (l ++ r) = true := by
  intro l r
  induction l with
  | nil => simp [List.isPrefixOf]
  | cons a as ih => simp [List.isPrefixOf, ih]

theorem takeWhile_append_all (p : Char → Bool) :
    ∀ (l r : List Char), (∀ c ∈ l, p c = true) →
    (∀ c, r.head? = some c → p c = false) →
    (l ++ r).takeWhile p = l := by
  intro l
  induction l with
  | nil =>
    intro r _ hr
    cases r with
    | nil => rfl
    | cons b bs =>
      have hb := hr b rfl
      simp [List.takeWhile_cons, hb]
  | cons a as ih =>
    intro r hl hr
    have ha : p a = true := hl a (by simp)
    simp only [List.cons_append, List.takeWhile_cons, ha, if_true]
    rw [ih r (fun c hc => hl c (by simp [hc])) hr]

theorem scanVersions_step (f : Nat) (c : Char) (cs : List Char)
    (h : hasMatch (c :: cs) = false) :
    scanVersions (f + 1) (c :: cs) = scanVersions f cs := by
  cases hp : marker.isPrefixOf (c :: cs) with
  | false => simp [scanVersions, hp]
  | true =>
    have hemp : (verRun (c :: cs)).isEmpty = true := by
      unfold hasMatch at h
      rw [hp] at h
      simpa using h
    simp [scanVersions, hp, hemp]

theorem verRest_length_le (s : List Char) :
    (verRest s).length ≤ s.length - marker.length := by
  unfold verRest verRun
  simp only [List.length_drop]
  omega

theorem scanVersions_congr :
    ∀ (f g : Nat) (s : List Char), s.length ≤ f → s.length ≤ g →
    scanVersions f s = scanVersions g s := by
  intro f
  induction f with
  | zero =>
    intro g s hf _
    have hs : s = [] := List.eq_nil_of_length_eq_zero (Nat.le_zero.mp hf)
    subst hs
    rw [scanVersions_nil, scanVersions_nil]
  | succ f ih =>
    intro g s hf hg
    cases s with
    | nil => rw [scanVersions_nil, scanVersions_nil]
    | cons c cs =>
      cases g with
      | zero => simp at hg
      | succ g' =>
        have hcs : cs.length ≤ f := by simp at hf; omega
        have hcs' : cs.length ≤ g' := by simp at hg; omega
        cases hp : marker.isPrefixOf (c :: cs) with
        | false =>
          simp only [scanVersions, hp, Bool.false_eq_true, if_false]
          exact ih g' cs hcs hcs'
        | true =>
          have hml : marker.length ≤ (c :: cs).length :=
            isPrefixOf_length_le marker (c :: cs) hp
          have hmpos : 0 < marker.length := by decide
          cases hemp : (verRun (c :: cs)).isEmpty with
          | true =>
            simp only [scanVersions, hp, hemp, if_true]
            exact ih g' cs hcs hcs'
          | false =>
            have hrl : (verRest (c :: cs)).length ≤ cs.length := by
              have := verRest_length_le (c :: cs)
              simp only [List.length_cons] at this ⊢
              omega
            simp only [scanVersions, hp, hemp, Bool.false_eq_true, if_false,
              if_true]
            rw [ih g' (verRest (c :: cs)) (le_trans hrl hcs)
              (le_trans hrl hcs')]

theorem verRun_match (ver rest : List Char)
    (hall : ∀ c ∈ ver, isVerChar c = true)
    (hrest : ∀ c, rest.head? = some c → isVerChar c = false) :
    verRun (marker ++ (ver ++ rest)) = ver := by
  unfold verRun
  rw [List.drop_left]
  exact takeWhile_append_all isVerChar ver rest hall hrest

theorem verRest_match (ver rest : List Char)
    (hall : ∀ c ∈ ver, isVerChar c = true)
    (hrest : ∀ c, rest.head? = some c → isVerChar c = false) :
    verRest (marker ++ (ver ++ rest)) = rest := by
  unfold verRest
  rw [verRun_match ver rest hall hrest, List.drop_left, List.drop_left]

theorem scanVersions_hit (f : Nat) (c : Char) (cs : List Char)
    (hp : marker.isPrefixOf (c :: cs) = true)
    (hemp : (verRun (c :: cs)).isEmpty = false) :
    scanVersions (f + 1) (c :: cs) =
      verRun (c :: cs) :: scanVersions f (verRest (c :: cs)) := by
  simp [scanVersions, hp, hemp]

theorem scanVersions_match (f : Nat) (ver rest : List Char)
    (hne : ver ≠ [])
    (hall : ∀ c ∈ ver, isVerChar c = true)
    (hrest : ∀ c, rest.head? = some c → isVerChar c = false) :
    scanVersions (f + 1) (marker ++ (ver ++ rest)) =
      ver :: scanVersions f rest := by
  have hvr : verRun (marker ++ (ver ++ rest)) = ver :=
    verRun_match ver rest hall hrest
  have hvrest : verRest (marker ++ (ver ++ rest)) = rest :=
    verRest_match ver rest hall hrest
  have hp : marker.isPrefixOf (marker ++ (ver ++ rest)) = true :=
    isPrefixOf_append_self marker (ver ++ rest)
  have hemp : (verRun (marker ++ (ver ++ rest))).isEmpty = false := by
    rw [hvr]
    cases ver with
    | nil => exact absurd rfl hne
    | cons a l => rfl
  have hcons : marker ++ (ver ++ rest) =
      'D' :: ("umped from database version ".toList ++ (ver ++ rest)) := rfl
  rw [hcons] at hvr hvrest hp hemp ⊢
  rw [scanVersions_hit f _ _ hp hemp, hvr, hvrest]

theorem scanVersions_first :
    ∀ (pre : List Char) (f : Nat) (ver rest : List Char),
    (pre ++ (marker ++ (ver ++ rest))).length ≤ f →
    ver ≠ [] →
    (∀ c ∈ ver, isVerChar c = true) →
    (∀ c, rest.head? = some c → isVerChar c = false) →
    (∀ k, k < pre.length →
      hasMatch ((pre ++ (marker ++ (ver ++ rest))).drop k) = false) →
    ∃ tail, scanVersions f (pre ++ (marker ++ (ver ++ rest))) = ver :: tail := by
  intro pre
  induction pre with
  | nil =>
    intro f ver rest hf hne hall hrest _
    simp only [List.nil_append] at hf ⊢
    cases f with
    | zero =>
      exfalso
      have hpos : 0 < (marker ++ (ver ++ rest)).length := by
        simp [marker]
      omega
    | succ f' =>
      exact ⟨scanVersions f' rest, scanVersions_match f' ver rest hne hall hrest⟩
  | cons c pre ih =>
    intro f ver rest hf hne hall hrest hpre
    have h0 : hasMatch (c :: (pre ++ (marker ++ (ver ++ rest)))) = false := by
      have := hpre 0 (by simp)
      simpa using this
    cases f with
    | zero =>
      exfalso
      simp at hf
    | succ f' =>
      rw [List.cons_append]
      rw [scanVersions_step f' c _ h0]
      apply ih f' ver rest
      · simp only [List.cons_append, List.length_cons] at hf
        omega
      · exact hne
      · exact hall
      · exact hrest
      · intro k hk
        have := hpre (k + 1) (by simp only [List.length_cons]; omega)
        simpa [List.cons_append] using this

theorem isWhitespace_not_verChar (c : Char) (h : c.isWhitespace = true) :
    isVerChar c = false := by
  simp [Char.isWhitespace] at h
  rcases h with ((h | h) | h) | h <;> subst h <;> decide

/-- C4 -- For a decoded dump text of the shape pre, then the literal marker,
then a nonempty dotted numeric version (digits and dots), then whitespace,
where no regex match starts inside pre, the version extractor returns
exactly that first version string: the run of digits and dots following the
marker up to the next whitespace. -/
theorem extract_db_version_first (pre ver rest : List Char)
    (hne : ver ≠ [])
    (hall : ∀ c ∈ ver, isVerChar c = true)
    (hws : ∀ c, rest.head? = some c → c.isWhitespace = true)
    (hpre : ∀ k, k < pre.length →
      hasMatch ((pre ++ (marker ++ (ver ++ rest))).drop k) = false) :
    extract_db_version (pre ++ (marker ++ (ver ++ rest))) = POut.ok ver := by
  have hrest : ∀ c, rest.head? = some c → isVerChar c = false :=
    fun c hc => isWhitespace_not_verChar c (hws c hc)
  obtain ⟨tail, htail⟩ := scanVersions_first pre
    ((pre ++ (marker ++ (ver ++ rest))).length) ver rest (le_refl _)
    hne hall hrest hpre
  unfold extract_db_version findVersions
  rw [htail]

/-- C4 witness: a concrete dump text containing the marker followed by 15.3
and a newline yields exactly 15.3. -/
theorem extract_db_version_first_witness :
    extract_db_version (("-- PostgreSQL database dump\n-- ".toList) ++
      (marker ++ ("15.3".toList ++ "\n-- more text".toList))) =
      POut.ok "15.3".toList :=
  extract_db_version_first "-- PostgreSQL database dump\n-- ".toList
    "15.3".toList "\n-- more text".toList
    (by decide) (by decide)
    (by
      intro c hc
      rw [show ("\n-- more text".toList).head? = some '\n' from rfl] at hc
      injection hc with h
      subst h
      decide)
    (by decide)

theorem scanVersions_no_match :
    ∀ (f : Nat) (s : List Char), s.length ≤ f →
    (∀ k, k < s.length → hasMatch (s.drop k) = false) →
    scanVersions f s = [] := by
  intro f
  induction f with
  | zero =>
    intro s hf _
    have hs : s = [] := List.eq_nil_of_length_eq_zero (Nat.le_zero.mp hf)
    subst hs
    rfl
  | succ f ih =>
    intro s hf h
    cases s with
    | nil => exact scanVersions_nil _
    | cons c cs =>
      rw [scanVersions_step f c cs (by simpa using h 0 (by simp))]
      apply ih cs (by simp at hf; omega)
      intro k hk
      have := h (k + 1) (by simp only [List.length_cons]; omega)
      simpa using this

/-- C8 -- For a decoded dump text with no occurrence of the version marker
pattern (no position where the marker is followed by at least one digit or
dot), findall returns the empty list and indexing it raises an IndexError:
an uncaught exception, not a controlled exit. -/
theorem extract_db_version_no_match (s : List Char)
    (h : ∀ k, k < s.length → hasMatch (s.drop k) = false) :
    extract_db_version s = POut.raise "IndexError: list index out of range" := by
  unfold extract_db_version findVersions
  rw [scanVersions_no_match s.length s (le_refl _) h]

/-- C8 witness: a concrete dump text without the marker pattern makes the
extractor raise the IndexError. -/
theorem extract_db_version_no_match_witness :
    extract_db_version "CREATE TABLE public.criminal_records ();".toList =
      POut.raise "IndexError: list index out of range" :=
  extract_db_version_no_match "CREATE TABLE public.criminal_records ();".toList
    (by decide)
